import Mathlib

/-!
Verification of the seneca-app ingestion scripts
(`scripts/uploadTextsToSupabase.py`, `scripts/scrapePhilosophicalQuotesSelenium.py`).

Python strings are modeled as `List Char` (the sources only handle ASCII
markers and bodies).  Every Python string primitive used by the scripts is
given an executable Lean counterpart (`pyFind` for `str.find`, `pyStrip` for
`str.strip`, `pySplitSep` for `str.split(sep)`, ...) and each chunking
function is translated line by line from the Python source.
-/

set_option maxRecDepth 20000

abbrev PyStr := List Char

/-- Embed a Lean string literal as a `PyStr`. -/
def S (s : String) : PyStr := s.data

/-- The ASCII apostrophe character. -/
def apos : Char := Char.ofNat 39

/-- Whitespace characters recognized by Python's `str.strip`. -/
def isPySpace (c : Char) : Bool :=
  c = ' ' || c = '\t' || c = '\n' || c = '\r' || c = Char.ofNat 11 || c = Char.ofNat 12

/-- Python `str.strip()`: drop leading and trailing whitespace. -/
def pyStrip (s : PyStr) : PyStr :=
  ((s.dropWhile isPySpace).reverse.dropWhile isPySpace).reverse

/-- Lower-case an ASCII character (Python `str.lower`, ASCII fragment). -/
def pyLowerChar (c : Char) : Char :=
  if 'A' ≤ c ∧ c ≤ 'Z' then Char.ofNat (c.toNat + 32) else c

/-- Upper-case an ASCII character (Python `str.upper`, ASCII fragment). -/
def pyUpperChar (c : Char) : Char :=
  if 'a' ≤ c ∧ c ≤ 'z' then Char.ofNat (c.toNat - 32) else c

def pyLower (s : PyStr) : PyStr := s.map pyLowerChar

def pyUpper (s : PyStr) : PyStr := s.map pyUpperChar

/-- Python `str.find(pat)`: index of the leftmost occurrence, `none` for `-1`. -/
def pyFind (s pat : PyStr) : Option Nat :=
  if pat.isPrefixOf s then some 0
  else
    match s with
    | [] => none
    | _ :: t => (pyFind t pat).map (· + 1)

/-- Python `str.find(pat, start)`. -/
def pyFindFrom (s pat : PyStr) (start : Nat) : Option Nat :=
  (pyFind (s.drop start) pat).map (· + start)

/-- Python `pat in s` (substring containment). -/
def containsSub (s pat : PyStr) : Bool := (pyFind s pat).isSome

/-- Python slice `s[i:j]` for `0 ≤ i, j` (the only form the scripts use). -/
def pySlice (s : PyStr) (i j : Nat) : PyStr := (s.take j).drop i

/-- Python `s.split(c)` for a one-character separator. -/
def splitOnChar (sep : Char) : PyStr → List PyStr
  | [] => [[]]
  | c :: rest =>
    if c = sep then [] :: splitOnChar sep rest
    else
      match splitOnChar sep rest with
      | [] => [[c]]
      | h :: t => (c :: h) :: t

/-- Worker for `pySplitSep`; `fuel` dominates the input length. -/
def pySplitSepAux (sep : PyStr) : Nat → PyStr → List PyStr
  | 0, s => [s]
  | fuel + 1, s =>
    match pyFind s sep with
    | none => [s]
    | some i => s.take i :: pySplitSepAux sep fuel (s.drop (i + sep.length))

/-- Python `s.split(sep)` for a non-empty separator string. -/
def pySplitSep (s sep : PyStr) : List PyStr := pySplitSepAux sep (s.length + 1) s

/-- Python `sep.join(parts)`. -/
def pyJoin (sep : PyStr) (parts : List PyStr) : PyStr := List.intercalate sep parts

/-- Python `str.isupper()` (ASCII fragment): at least one letter and no
lower-case letter. -/
def pyIsUpper (s : PyStr) : Bool :=
  s.any (fun c => c.isAlpha) && s.all (fun c => !('a' ≤ c ∧ c ≤ 'z'))

/-- Python truthiness of an optional string: `None` and `""` are falsy. -/
def truthy : Option PyStr → Bool
  | none => false
  | some s => s ≠ []

/-- Python's f-string rendering of an optional string (`None` prints as "None"). -/
def optStr : Option PyStr → PyStr
  | some s => s
  | none => S "None"

/-!  ## Chunk records (`create_chunk_objects`)

`uuid.uuid4()` draws a fresh identifier per emitted chunk; the draw sequence
is modeled by a supply `idGen : Nat → PyStr` giving the result of the `i`-th
draw. -/

structure Chunk where
  id : PyStr
  author : PyStr
  work : PyStr
  section_label : PyStr
  text : PyStr
  chunk_index : Nat
  deriving DecidableEq, Repr

/-- `create_chunk_objects(chunks, author, work)`: one record per
`(section, text)` pair, `chunk_index` = 0-based enumeration position. -/
def create_chunk_objects (idGen : Nat → PyStr) (chunks : List (PyStr × PyStr))
    (author work : PyStr) : List Chunk :=
  chunks.enum.map fun p =>
    { id := idGen p.1
      author := author
      work := work
      section_label := p.2.1
      text := p.2.2
      chunk_index := p.1 }

/-!  ## Boundary locator (`extract_content`) -/

/-- `extract_content(text)`: trim to the region between the Gutenberg
START/END markers; the slice is taken only when BOTH markers are found. -/
def extract_content (text : PyStr) : PyStr :=
  match pyFind text (S "*** START OF"), pyFind text (S "*** END OF") with
  | some start_idx, some end_idx =>
    match pyFindFrom text (S "\n") start_idx with
    | some k => pyStrip (pySlice text k end_idx)
    | none => pyStrip text
  | _, _ => pyStrip text

/-!  ## Marcus Aurelius scanner (`chunk_marcus_meditations`) -/

/-- The Roman-numeral lookup list of `chunk_marcus_meditations`
(source lines 218-223): `I` .. `LVIII`. -/
def marcus_roman_numerals : List PyStr :=
  [S "I", S "II", S "III", S "IV", S "V", S "VI", S "VII", S "VIII", S "IX", S "X",
   S "XI", S "XII", S "XIII", S "XIV", S "XV", S "XVI", S "XVII", S "XVIII", S "XIX", S "XX",
   S "XXI", S "XXII", S "XXIII", S "XXIV", S "XXV", S "XXVI", S "XXVII", S "XXVIII", S "XXIX", S "XXX",
   S "XXXI", S "XXXII", S "XXXIII", S "XXXIV", S "XXXV", S "XXXVI", S "XXXVII", S "XXXVIII", S "XXXIX", S "XL",
   S "XLI", S "XLII", S "XLIII", S "XLIV", S "XLV", S "XLVI", S "XLVII", S "XLVIII", S "XLIX", S "L",
   S "LI", S "LII", S "LIII", S "LIV", S "LV", S "LVI", S "LVII", S "LVIII"]

/-- English ordinal words used by the book-header test. -/
def bookOrdinals : List PyStr :=
  [S "FIRST", S "SECOND", S "THIRD", S "FOURTH", S "FIFTH", S "SIXTH",
   S "SEVENTH", S "EIGHTH", S "NINTH", S "TENTH", S "ELEVENTH", S "TWELFTH"]

/-- Book-header test of `chunk_marcus_meditations` (source line 203):
`'BOOK' in first_line_upper and any(num in first_line_upper for ...)`. -/
def isMarcusBookHeader (first_line_upper : PyStr) : Bool :=
  containsSub first_line_upper (S "BOOK") &&
    bookOrdinals.any fun num => containsSub first_line_upper num

/-- State of the Marcus paragraph loop: current book and emitted pairs. -/
structure MarcusState where
  current_book : Option PyStr
  chunks : List (PyStr × PyStr)
  deriving Repr

/-- `para.split('\n')[0].strip()` (source line 199). -/
def marcusFirstLine (para : PyStr) : PyStr :=
  pyStrip (List.headD (splitOnChar '\n' para) [])

/-- `lines[0].strip().split('.')[0]` (source line 217). -/
def marcusFirstWord (para : PyStr) : PyStr :=
  List.headD (splitOnChar '.' (marcusFirstLine para)) []

/-- One iteration of the `for para in paragraphs` loop of
`chunk_marcus_meditations` (source lines 194-228). -/
def marcus_step (st : MarcusState) (para0 : PyStr) : MarcusState :=
  let para := pyStrip para0
  if para = [] then st
  else
    let first_line := marcusFirstLine para
    let first_line_upper := pyUpper first_line
    if isMarcusBookHeader first_line_upper then
      { st with current_book := some first_line }
    else
      match st.current_book with
      | none => st
      | some book =>
        if book = [] then st
        else
          let first_word := marcusFirstWord para
          if first_word ∈ marcus_roman_numerals then
            { st with chunks :=
                st.chunks ++ [(book ++ S " - Section " ++ first_word, para)] }
          else st

/-- The `(section, text)` pairs produced by `chunk_marcus_meditations`
before `create_chunk_objects` (source lines 159-230). -/
def chunk_marcus_meditations_pairs (text : PyStr) : List (PyStr × PyStr) :=
  let start_marker := S "THE FIRST BOOK"
  let actual_start_marker := S "I. Of my grandfather"
  let end_marker := S ("As for thyself; thou hast to do with neither. Go thy ways " ++
    "then well pleased and contented: for so is He that dismisseth thee.")
  match pyFind text start_marker with
  | none => []
  | some start_pos =>
    match pyFindFrom text actual_start_marker start_pos with
    | none => []
    | some _ =>
      let filtered_text :=
        match pyFind text end_marker with
        | none => text.drop start_pos
        | some end_pos => pySlice text start_pos end_pos
      let paragraphs := pySplitSep filtered_text (S "\n\n")
      (paragraphs.foldl marcus_step { current_book := none, chunks := [] }).chunks

/-- `chunk_marcus_meditations(text, author, work)`. -/
def chunk_marcus_meditations (idGen : Nat → PyStr) (text author work : PyStr) :
    List Chunk :=
  create_chunk_objects idGen (chunk_marcus_meditations_pairs text) author work

/-!  ## Seneca's Morals scanner (`chunk_seneca_morals`) -/

/-- Chapter-header test (source line 281):
`line.startswith('CHAPTER ') and '.' in line and len(line) < 20`. -/
def isChapterHeader (line : PyStr) : Bool :=
  (S "CHAPTER ").isPrefixOf line && line.elem '.' && decide (line.length < 20)

/-- Boilerplate test shared by the line scanners (source line 338):
`any(skip in line.lower() for skip in [...])`. -/
def isMoralsBoilerplate (line : PyStr) : Bool :=
  [S "project gutenberg", S "table of contents", S "http://"].any
    fun skip => containsSub (pyLower line) skip

/-- Chapter-title look-ahead of `chunk_seneca_morals` (source lines 297-317):
skip blank lines, absorb consecutive ALL-CAPS lines, stop at another
structural marker or at ordinary content.  Returns the absorbed title lines
and the remaining line sequence (the suffix starting at the stop line). -/
def collectTitle : List PyStr → List PyStr × List PyStr
  | [] => ([], [])
  | l :: rest =>
    let next_line := pyStrip l
    if next_line = [] then collectTitle rest
    else if (S "CHAPTER ").isPrefixOf next_line then ([], l :: rest)
    else if (S "SENECA OF ").isPrefixOf next_line ||
        next_line = S "TO THE READER." || next_line = S "CONTENTS" then
      ([], l :: rest)
    else if pyIsUpper next_line then
      let p := collectTitle rest
      (next_line :: p.1, p.2)
    else ([], l :: rest)

/-- State of the `chunk_seneca_morals` line loop. -/
structure MoralsState where
  current_main_section : Option PyStr
  current_chapter : Option PyStr
  current_chapter_title : Option PyStr
  chapter_content : List PyStr
  chunks : List (PyStr × PyStr)
  deriving Repr

/-- The repeated "save previous chapter" block of `chunk_seneca_morals`
(source lines 263-269, 283-290, 349-356): flush the accumulated buffer as a
chunk when a chapter is open, the buffer is non-empty, and the joined
stripped text is longer than 100 characters. -/
def morals_flush (ms ch title : Option PyStr) (content : List PyStr)
    (chunks : List (PyStr × PyStr)) : List (PyStr × PyStr) :=
  match ch with
  | none => chunks
  | some c =>
    if c = [] then chunks
    else if content = [] then chunks
    else
      let full_text := pyStrip (pyJoin (S "\n") content)
      if 100 < full_text.length then
        let base := optStr ms ++ S " - " ++ c
        let section_name :=
          match title with
          | some t => base ++ S " - " ++ t
          | none => base
        chunks ++ [(section_name, full_text)]
      else chunks

/-- The `while i < len(lines)` loop of `chunk_seneca_morals` (source lines
257-346).  `fuel` bounds the number of iterations; since every branch
consumes at least one line, `fuel = lines.length` is always sufficient. -/
def morals_loop : Nat → MoralsState → List PyStr → MoralsState
  | _, st, [] => st
  | 0, st, _ :: _ => st
  | fuel + 1, st, l :: rest =>
    let line := pyStrip l
    if (S "SENECA OF ").isPrefixOf line then
      morals_loop fuel
        { current_main_section := some line
          current_chapter := none
          current_chapter_title := none
          chapter_content := []
          chunks := morals_flush st.current_main_section st.current_chapter
            st.current_chapter_title st.chapter_content st.chunks } rest
    else if isChapterHeader line then
      let flushed := morals_flush st.current_main_section st.current_chapter
        st.current_chapter_title st.chapter_content st.chunks
      let p := collectTitle rest
      if p.1 = [] then
        morals_loop fuel
          { st with
            current_chapter := none
            chapter_content := []
            chunks := flushed } rest
      else
        morals_loop fuel
          { st with
            current_chapter := some (pyStrip (line.filter (· ≠ '.')))
            current_chapter_title := some (pyJoin (S " ") p.1)
            chapter_content := []
            chunks := flushed } p.2
    else if line = [] || decide (line.length < 10) then
      morals_loop fuel
        (if st.chapter_content ≠ [] then
          { st with chapter_content := st.chapter_content ++ [line] }
        else st) rest
    else if isMoralsBoilerplate line then
      morals_loop fuel st rest
    else
      morals_loop fuel
        (if truthy st.current_main_section then
          { st with chapter_content := st.chapter_content ++ [line] }
        else st) rest

/-- The `(section, text)` pairs produced by `chunk_seneca_morals`
(source lines 232-364), including the terminal flush. -/
def chunk_seneca_morals_pairs (text : PyStr) : List (PyStr × PyStr) :=
  match pyFind text (S "SENECA OF BENEFITS") with
  | none => []
  | some start_pos =>
    let lines := splitOnChar '\n' (text.drop start_pos)
    let fin := morals_loop lines.length
      { current_main_section := none, current_chapter := none,
        current_chapter_title := none, chapter_content := [], chunks := [] }
      lines
    if truthy fin.current_chapter && decide (fin.chapter_content ≠ []) then
      morals_flush fin.current_main_section fin.current_chapter
        fin.current_chapter_title fin.chapter_content fin.chunks
    else
      match fin.current_main_section with
      | some ms =>
        if decide (ms ≠ []) && decide (fin.chapter_content ≠ []) &&
            containsSub ms (S "CLEMENCY") then
          let full_text := pyStrip (pyJoin (S "\n") fin.chapter_content)
          if 100 < full_text.length then fin.chunks ++ [(ms, full_text)]
          else fin.chunks
        else fin.chunks
      | none => fin.chunks

/-- `chunk_seneca_morals(text, author, work)`. -/
def chunk_seneca_morals (idGen : Nat → PyStr) (text author work : PyStr) :
    List Chunk :=
  create_chunk_objects idGen (chunk_seneca_morals_pairs text) author work

/-!  ## Seneca's Minor Dialogues scanner (`chunk_seneca_dialogues`) -/

/-- Match of `\[\d+\]` at the head of the input; returns the match length.
The pattern is deterministic: `\d+` is a maximal digit run followed by `]`. -/
def matchBracketNum : PyStr → Option Nat
  | '[' :: rest =>
    let ds := rest.takeWhile (·.isDigit)
    if ds ≠ [] ∧ (S "]").isPrefixOf (rest.drop ds.length) then
      some (1 + ds.length + 1)
    else none
  | _ => none

/-- `re.match(r'^\[\d+\]', line)` (source line 470). -/
def startsWithFootnote (line : PyStr) : Bool := (matchBracketNum line).isSome

/-- Match of `<a[^>]*><sup>\[\d+\]</sup></a>` at the head of the input
(source line 394).  `[^>]*` is a maximal run of non-`>` characters. -/
def matchAnchorSup (l : PyStr) : Option Nat :=
  if (S "<a").isPrefixOf l then
    let rest := l.drop 2
    let run := rest.takeWhile (· ≠ '>')
    match rest.drop run.length with
    | '>' :: tail =>
      if (S "<sup>[").isPrefixOf tail then
        let t2 := tail.drop 6
        let ds := t2.takeWhile (·.isDigit)
        if ds ≠ [] ∧ (S "]</sup></a>").isPrefixOf (t2.drop ds.length) then
          some (2 + run.length + 1 + 6 + ds.length + 11)
        else none
      else none
    | _ => none
  else none

/-- Match of `<sup>\[\d+\]</sup>` at the head of the input (source line 396). -/
def matchSup (l : PyStr) : Option Nat :=
  if (S "<sup>[").isPrefixOf l then
    let t2 := l.drop 6
    let ds := t2.takeWhile (·.isDigit)
    if ds ≠ [] ∧ (S "]</sup>").isPrefixOf (t2.drop ds.length) then
      some (6 + ds.length + 7)
    else none
  else none

/-- `re.sub(pattern, '', s)` driver: scan left to right, deleting each
leftmost non-overlapping match.  `fuel` dominates the input length. -/
def scrubAux (m : PyStr → Option Nat) : Nat → PyStr → PyStr
  | 0, s => s
  | _ + 1, [] => []
  | fuel + 1, c :: rest =>
    match m (c :: rest) with
    | some (n + 1) => scrubAux m fuel ((c :: rest).drop (n + 1))
    | _ => c :: scrubAux m fuel rest

def scrub (m : PyStr → Option Nat) (s : PyStr) : PyStr := scrubAux m s.length s

/-- `re.sub(r'\[\d+\]', '', s)` (source lines 426, 448, 475, 499, 533). -/
def removeBrackets (s : PyStr) : PyStr := scrub matchBracketNum s

/-- The Roman-numeral lookup list of `chunk_seneca_dialogues`
(source lines 408-413): `I` .. `LX`. -/
def dialogues_roman_numerals : List PyStr :=
  [S "I", S "II", S "III", S "IV", S "V", S "VI", S "VII", S "VIII", S "IX", S "X",
   S "XI", S "XII", S "XIII", S "XIV", S "XV", S "XVI", S "XVII", S "XVIII", S "XIX", S "XX",
   S "XXI", S "XXII", S "XXIII", S "XXIV", S "XXV", S "XXVI", S "XXVII", S "XXVIII", S "XXIX", S "XXX",
   S "XXXI", S "XXXII", S "XXXIII", S "XXXIV", S "XXXV", S "XXXVI", S "XXXVII", S "XXXVIII", S "XXXIX", S "XL",
   S "XLI", S "XLII", S "XLIII", S "XLIV", S "XLV", S "XLVI", S "XLVII", S "XLVIII", S "XLIX", S "L",
   S "LI", S "LII", S "LIII", S "LIV", S "LV", S "LVI", S "LVII", S "LVIII", S "LIX", S "LX"]

/-- `re.match(r'THE (FIRST|...|TWELFTH) BOOK OF THE DIALOGUES', line)`
(source line 420): an anchored prefix match. -/
def isDialoguesBookHeader (line : PyStr) : Bool :=
  bookOrdinals.any fun o =>
    (S "THE " ++ o ++ S " BOOK OF THE DIALOGUES").isPrefixOf line

/-- `'BOOK OF THE DIALOGUE OF L. ANNAEUS' in line` (source line 443). -/
def isAnnaeusHeader (line : PyStr) : Bool :=
  containsSub line (S "BOOK OF THE DIALOGUE OF L. ANNAEUS")

/-- State of the `chunk_seneca_dialogues` line loop. -/
structure DialoguesState where
  current_book : Option PyStr
  current_book_title : Option PyStr
  current_paragraph : List PyStr
  current_paragraph_num : Option PyStr
  in_footnotes : Bool
  chunks : List (PyStr × PyStr)
  deriving Repr

/-- The repeated "save previous paragraph" block of `chunk_seneca_dialogues`
(source lines 423-430, 445-452, 472-479, 497-504, 530-537): join the buffer,
strip it, delete `[n]` footnote markers, and emit when the scrubbed text is
longer than 100 characters. -/
def dialogues_flush (bt num : Option PyStr) (para : List PyStr)
    (ks : List (PyStr × PyStr)) : List (PyStr × PyStr) :=
  if para ≠ [] && truthy num then
    let para_text := removeBrackets (pyStrip (pyJoin (S "\n") para))
    if 100 < para_text.length then
      ks ++ [(optStr bt ++ S " - Paragraph " ++ optStr num, para_text)]
    else ks
  else ks

/-- One iteration of the `while i < len(lines)` loop of
`chunk_seneca_dialogues` (source lines 416-527). -/
def dialogues_step (st : DialoguesState) (l : PyStr) : DialoguesState :=
  let line := pyStrip l
  if isDialoguesBookHeader line || isAnnaeusHeader line then
    let ks :=
      if truthy st.current_book then
        dialogues_flush st.current_book_title st.current_paragraph_num
          st.current_paragraph st.chunks
      else st.chunks
    { current_book := some line
      current_book_title := some line
      current_paragraph := []
      current_paragraph_num := none
      in_footnotes := false
      chunks := ks }
  else if !truthy st.current_book then st
  else if startsWithFootnote line then
    if st.current_paragraph ≠ [] && truthy st.current_paragraph_num then
      { st with
        chunks := dialogues_flush st.current_book_title st.current_paragraph_num
          st.current_paragraph st.chunks
        current_paragraph := []
        current_paragraph_num := none
        in_footnotes := true }
    else { st with in_footnotes := true }
  else if st.in_footnotes then st
  else
    let line_start :=
      if line.elem '.' then pyStrip (List.headD (splitOnChar '.' line) [])
      else []
    if line_start ∈ dialogues_roman_numerals &&
        decide (line_start.length + 2 < line.length) then
      { st with
        chunks := dialogues_flush st.current_book_title st.current_paragraph_num
          st.current_paragraph st.chunks
        current_paragraph_num := some line_start
        current_paragraph := [line] }
    else if line = [] || decide (line.length < 10) then
      if st.current_paragraph ≠ [] then
        { st with current_paragraph := st.current_paragraph ++ [line] }
      else st
    else if isMoralsBoilerplate line then st
    else if st.current_paragraph ≠ [] then
      { st with current_paragraph := st.current_paragraph ++ [line] }
    else st

/-- The `(section, text)` pairs produced by `chunk_seneca_dialogues`
(source lines 366-539), including the terminal flush. -/
def chunk_seneca_dialogues_pairs (text : PyStr) : List (PyStr × PyStr) :=
  match pyFind text (S "THE FIRST BOOK OF THE DIALOGUES") with
  | none => []
  | some start_pos =>
    let end_marker := S "how what is crooked may be straightened. . . ."
    let filtered_text :=
      match pyFind text end_marker with
      | none => text.drop start_pos
      | some e => pySlice text start_pos (e + end_marker.length)
    let filtered_text := scrub matchAnchorSup filtered_text
    let filtered_text := scrub matchSup filtered_text
    let lines := splitOnChar '\n' filtered_text
    let fin := lines.foldl dialogues_step
      { current_book := none, current_book_title := none,
        current_paragraph := [], current_paragraph_num := none,
        in_footnotes := false, chunks := [] }
    if truthy fin.current_book && fin.current_paragraph ≠ [] &&
        truthy fin.current_paragraph_num && !fin.in_footnotes then
      dialogues_flush fin.current_book_title fin.current_paragraph_num
        fin.current_paragraph fin.chunks
    else fin.chunks

/-- `chunk_seneca_dialogues(text, author, work)`. -/
def chunk_seneca_dialogues (idGen : Nat → PyStr) (text author work : PyStr) :
    List Chunk :=
  create_chunk_objects idGen (chunk_seneca_dialogues_pairs text) author work

/-!  ## Epictetus Enchiridion scanner (`chunk_epictetus`) -/

/-- The Roman-numeral lookup list of `chunk_epictetus`
(source lines 589-594): `I` .. `LVIII` (identical to the Marcus list). -/
def epictetus_roman_numerals : List PyStr :=
  [S "I", S "II", S "III", S "IV", S "V", S "VI", S "VII", S "VIII", S "IX", S "X",
   S "XI", S "XII", S "XIII", S "XIV", S "XV", S "XVI", S "XVII", S "XVIII", S "XIX", S "XX",
   S "XXI", S "XXII", S "XXIII", S "XXIV", S "XXV", S "XXVI", S "XXVII", S "XXVIII", S "XXIX", S "XXX",
   S "XXXI", S "XXXII", S "XXXIII", S "XXXIV", S "XXXV", S "XXXVI", S "XXXVII", S "XXXVIII", S "XXXIX", S "XL",
   S "XLI", S "XLII", S "XLIII", S "XLIV", S "XLV", S "XLVI", S "XLVII", S "XLVIII", S "XLIX", S "L",
   S "LI", S "LII", S "LIII", S "LIV", S "LV", S "LVI", S "LVII", S "LVIII"]

/-- Boilerplate test of `chunk_epictetus` (source line 607). -/
def isEpictetusBoilerplate (para : PyStr) : Bool :=
  [S "project gutenberg", S "contents", S "http://", S "footnote"].any
    fun skip => containsSub (pyLower para) skip

/-- State of the `chunk_epictetus` paragraph loop. -/
structure EpictetusState where
  current_section : PyStr
  current_section_content : List PyStr
  chunks : List (PyStr × PyStr)
  deriving Repr

/-- The "save the previous section" block of `chunk_epictetus`
(source lines 612-616, 627-631): join with blank lines and emit when longer
than 50 characters. -/
def epictetus_flush (sec : PyStr) (content : List PyStr)
    (ks : List (PyStr × PyStr)) : List (PyStr × PyStr) :=
  if sec ≠ [] && content ≠ [] then
    let full_text := pyJoin (S "\n\n") content
    if 50 < full_text.length then ks ++ [(sec, full_text)] else ks
  else ks

/-- One iteration of the `for para in paragraphs` loop of `chunk_epictetus`
(source lines 601-625). -/
def epictetus_step (st : EpictetusState) (para0 : PyStr) : EpictetusState :=
  let para := pyStrip para0
  if para = [] then st
  else if isEpictetusBoilerplate para then st
  else if para ∈ epictetus_roman_numerals then
    { current_section := S "Section " ++ para
      current_section_content := []
      chunks := epictetus_flush st.current_section st.current_section_content
        st.chunks }
  else if st.current_section ≠ [] && decide (50 < para.length) then
    { st with current_section_content := st.current_section_content ++ [para] }
  else st

/-- The `(section, text)` pairs produced by `chunk_epictetus`
(source lines 541-633), including the terminal flush. -/
def chunk_epictetus_pairs (text : PyStr) : List (PyStr × PyStr) :=
  let start_marker := S "There are things which are within our power"
  let text1 :=
    match pyFind text start_marker with
    | some p => text.drop p
    | none => text
  let em1 := S "\"Anytus and Melitus may kill me indeed; but hurt me they cannot.\""
  let em2 := S "Anytus and Melitus may kill me indeed; but hurt me they cannot."
  let text2 :=
    match pyFind text1 em1 with
    | some e => text1.take (e + em1.length)
    | none =>
      match pyFind text1 em1 with
      | some e => text1.take (e + em1.length)
      | none =>
        match pyFind text1 em2 with
        | some e => text1.take (e + em2.length)
        | none => text1
  let paragraphs := pySplitSep text2 (S "\n\n")
  let fin := paragraphs.foldl epictetus_step
    { current_section := S "Section I", current_section_content := [],
      chunks := [] }
  epictetus_flush fin.current_section fin.current_section_content fin.chunks

/-- `chunk_epictetus(text, author, work)`. -/
def chunk_epictetus (idGen : Nat → PyStr) (text author work : PyStr) :
    List Chunk :=
  create_chunk_objects idGen (chunk_epictetus_pairs text) author work

/-!  ## Nietzsche Zarathustra scanner (`chunk_nietzsche`) -/

/-- The Roman-numeral lookup list of `chunk_nietzsche`
(source lines 676-683): `I` .. `LXXX`, 80 entries. -/
def nietzsche_roman_numerals : List PyStr :=
  [S "I", S "II", S "III", S "IV", S "V", S "VI", S "VII", S "VIII", S "IX", S "X",
   S "XI", S "XII", S "XIII", S "XIV", S "XV", S "XVI", S "XVII", S "XVIII", S "XIX", S "XX",
   S "XXI", S "XXII", S "XXIII", S "XXIV", S "XXV", S "XXVI", S "XXVII", S "XXVIII", S "XXIX", S "XXX",
   S "XXXI", S "XXXII", S "XXXIII", S "XXXIV", S "XXXV", S "XXXVI", S "XXXVII", S "XXXVIII", S "XXXIX", S "XL",
   S "XLI", S "XLII", S "XLIII", S "XLIV", S "XLV", S "XLVI", S "XLVII", S "XLVIII", S "XLIX", S "L",
   S "LI", S "LII", S "LIII", S "LIV", S "LV", S "LVI", S "LVII", S "LVIII", S "LIX", S "LX",
   S "LXI", S "LXII", S "LXIII", S "LXIV", S "LXV", S "LXVI", S "LXVII", S "LXVIII", S "LXIX", S "LXX",
   S "LXXI", S "LXXII", S "LXXIII", S "LXXIV", S "LXXV", S "LXXVI", S "LXXVII", S "LXXVIII", S "LXXIX", S "LXXX"]

/-- Python `str.rstrip('.')`: drop trailing dots. -/
def dropTrailingDots (s : PyStr) : PyStr :=
  (s.reverse.dropWhile (· = '.')).reverse

/-- State of the `chunk_nietzsche` line loop. -/
structure NietzscheState where
  current_chapter : Option PyStr
  current_chapter_title : Option PyStr
  chapter_content : List PyStr
  chunks : List (PyStr × PyStr)
  deriving Repr

/-- The "save previous chapter" block of `chunk_nietzsche`
(source lines 697-702, 730-735): strip the joined buffer and emit when
longer than 100 characters. -/
def nietzsche_flush (ch title : Option PyStr) (content : List PyStr)
    (ks : List (PyStr × PyStr)) : List (PyStr × PyStr) :=
  if truthy ch && content ≠ [] then
    let full_text := pyStrip (pyJoin (S "\n") content)
    if 100 < full_text.length then
      ks ++ [(S "Chapter " ++ optStr ch ++ S " - " ++ optStr title, full_text)]
    else ks
  else ks

/-- One iteration of the `while i < len(lines)` loop of `chunk_nietzsche`
(source lines 686-727).  `line.split('.', 1)` has two parts exactly when the
line contains a dot. -/
def nietzsche_step (st : NietzscheState) (l : PyStr) : NietzscheState :=
  let line := pyStrip l
  let headerParse :=
    if line ≠ [] then
      match pyFind line (S ".") with
      | some i =>
        let potential_numeral := pyStrip (line.take i)
        if potential_numeral ∈ nietzsche_roman_numerals then
          some (potential_numeral, dropTrailingDots (pyStrip (line.drop (i + 1))))
        else none
      | none => none
    else none
  match headerParse with
  | some p =>
    { current_chapter := some p.1
      current_chapter_title := some p.2
      chapter_content := []
      chunks := nietzsche_flush st.current_chapter st.current_chapter_title
        st.chapter_content st.chunks }
  | none =>
    if line = [] || decide (line.length < 10) then
      if st.chapter_content ≠ [] then
        { st with chapter_content := st.chapter_content ++ [line] }
      else st
    else if isMoralsBoilerplate line then st
    else if truthy st.current_chapter then
      { st with chapter_content := st.chapter_content ++ [line] }
    else st

/-- The `(section, text)` pairs produced by `chunk_nietzsche`
(source lines 635-737), including the terminal flush. -/
def chunk_nietzsche_pairs (text : PyStr) : List (PyStr × PyStr) :=
  match pyFind text (S "I. THE THREE METAMORPHOSES.") with
  | none => []
  | some start_pos =>
    let filtered_text :=
      match pyFind text (S "coming out of gloomy mountains") with
      | none => text.drop start_pos
      | some e =>
        match pyFindFrom text (S ".") e with
        | some pe => pySlice text start_pos (pe + 1)
        | none => text.drop start_pos
    let lines := splitOnChar '\n' filtered_text
    let fin := lines.foldl nietzsche_step
      { current_chapter := none, current_chapter_title := none,
        chapter_content := [], chunks := [] }
    nietzsche_flush fin.current_chapter fin.current_chapter_title
      fin.chapter_content fin.chunks

/-- `chunk_nietzsche(text, author, work)`. -/
def chunk_nietzsche (idGen : Nat → PyStr) (text author work : PyStr) :
    List Chunk :=
  create_chunk_objects idGen (chunk_nietzsche_pairs text) author work

/-!  ## Router (`chunk_text`)

The `'Republic'` branch of the source (line 769) calls
`chunk_plato_republic`, a name that is defined nowhere in the repository, so
taking that branch raises a `NameError` at run time; the embedding returns
`Except.error` there and `Except.ok` on every defined branch. -/

/-- `chunk_text(text, author, work)` (source lines 754-774). -/
def chunk_text (idGen : Nat → PyStr) (text author work : PyStr) :
    Except PyStr (List Chunk) :=
  let t := extract_content text
  if containsSub work (S "Meditations") then
    .ok (chunk_marcus_meditations idGen t author work)
  else if containsSub work (S "Morals") then
    .ok (chunk_seneca_morals idGen t author work)
  else if containsSub work (S "Dialogues") || containsSub work (S "Epistles") then
    .ok (chunk_seneca_dialogues idGen t author work)
  else if containsSub work (S "Enchiridion") then
    .ok (chunk_epictetus idGen t author work)
  else if containsSub work (S "Republic") then
    .error (S "NameError: name chunk_plato_republic is not defined")
  else if containsSub work (S "Zarathustra") then
    .ok (chunk_nietzsche idGen t author work)
  else
    .ok (chunk_seneca_morals idGen t author work)

/-!  ## Quote hash (`generate_quote_hash`, scraping script lines 67-70)

The Python function pipes the normalized combined string through
`hashlib.md5(...).hexdigest()`; the digest is modeled as an arbitrary
function of the combined bytes, which is all the dedup-invariance facts
depend on. -/

/-- `generate_quote_hash(quote_text, author)`: digest of
`f"{quote_text.strip().lower()}||{author.strip().lower()}"`. -/
def generate_quote_hash (digest : PyStr → PyStr) (quote_text author : PyStr) :
    PyStr :=
  digest (pyLower (pyStrip quote_text) ++ S "||" ++ pyLower (pyStrip author))

/-!  ## Reference Roman-numeral conversion (for auditing the lookup lists) -/

/-- Standard subtractive Roman numeral of `n` for `1 ≤ n ≤ 89`. -/
def toRoman (n : Nat) : PyStr :=
  (match n / 10 with
   | 0 => [] | 1 => S "X" | 2 => S "XX" | 3 => S "XXX" | 4 => S "XL"
   | 5 => S "L" | 6 => S "LX" | 7 => S "LXX" | _ => S "LXXX") ++
  (match n % 10 with
   | 0 => [] | 1 => S "I" | 2 => S "II" | 3 => S "III" | 4 => S "IV"
   | 5 => S "V" | 6 => S "VI" | 7 => S "VII" | 8 => S "VIII" | _ => S "IX")

/-!  ## Derived predicates used in the statements below -/

/-- Structural markers of the Seneca-morals scanner: a main-section header
or a chapter header. -/
def isMoralsStructuralMarker (line : PyStr) : Bool :=
  (S "SENECA OF ").isPrefixOf line || isChapterHeader line

/-- Boolean test: two strings differ only in letter case and in surrounding
whitespace (their stripped forms match character by character up to ASCII
case). -/
def caseWsEquivB (s s' : PyStr) : Bool :=
  (pyStrip s).length == (pyStrip s').length &&
  (List.zip (pyStrip s) (pyStrip s')).all fun p => pyLowerChar p.1 == pyLowerChar p.2

/-- The work title "Seneca's Morals" (apostrophe spelled via its code point). -/
def senecasMoralsTitle : PyStr := S "Seneca" ++ [apos] ++ S "s Morals"

/-- Concrete scenario input of the spec's Marcus scanner test. -/
def marcusScenarioInput : PyStr :=
  S "PREFACE...\nTHE FIRST BOOK\nI. Of my grandfather, Something.\nMore text.\n\nTHE SECOND BOOK\nI. Another.\n"

/-- The same scenario with a blank line after each book-header line, so that
headers and sections fall into distinct blank-line-delimited paragraphs. -/
def marcusScenarioInputSeparated : PyStr :=
  S "PREFACE...\nTHE FIRST BOOK\n\nI. Of my grandfather, Something.\nMore text.\n\nTHE SECOND BOOK\n\nI. Another.\n"

/-- Synthetic Minor-Dialogues document: book one with a paragraph `I.`, a
trailing footnote line, then a paragraph marker `II.` with long content
inside the footnote region, then book two with a paragraph `III.`. -/
def dialoguesFootnoteInput : PyStr :=
  S "THE FIRST BOOK OF THE DIALOGUES\n" ++
  (S "I. " ++ List.replicate 110 'a') ++ S "\n" ++
  S "[1] footnote text here\n" ++
  (S "II. " ++ List.replicate 110 'b') ++ S "\n" ++
  S "THE SECOND BOOK OF THE DIALOGUES\n" ++
  (S "III. " ++ List.replicate 110 'c')

/-!  # Claim C1 — Marcus scanner scenario -/

/-- C1 counterexample: on the exact scenario input, the Marcus-style scanner
(`extract_content` then `chunk_marcus_meditations`) yields ZERO chunks, not
two: each Roman-numeral marker sits in the same blank-line-delimited
paragraph as its book-header line, and the whole paragraph is consumed as a
book header. -/
theorem marcus_scenario_as_claimed_yields_no_chunks :
    chunk_marcus_meditations_pairs (extract_content marcusScenarioInput) = [] := by
  decide

/-- C1 amended: on the scenario input as given the scanner yields zero
chunks; with a blank line inserted after each book-header line (so that the
Roman-numeral sections form their own paragraphs) it yields exactly the two
claimed chunks, labeled "THE FIRST BOOK - Section I" and
"THE SECOND BOOK - Section I", each carrying its section's paragraph text,
with no preface text. -/
theorem marcus_scenario_corrected :
    chunk_marcus_meditations_pairs (extract_content marcusScenarioInput) = [] ∧
    chunk_marcus_meditations_pairs (extract_content marcusScenarioInputSeparated) =
      [(S "THE FIRST BOOK - Section I", S "I. Of my grandfather, Something.\nMore text."),
       (S "THE SECOND BOOK - Section I", S "I. Another.")] := by
  constructor
  · decide
  · decide

/-!  # Claim C5 — the `'Republic'` router branch -/

/-- C5: routing any document whose work title is "Republic" reaches the
`chunk_plato_republic` call, a function the repository never defines, so the
call raises `NameError` instead of returning a chunk sequence. -/
theorem chunk_text_republic_raises_name_error :
    ∀ (idGen : Nat → PyStr) (text author : PyStr),
      chunk_text idGen text author (S "Republic") =
        .error (S "NameError: name chunk_plato_republic is not defined") := by
  intro idGen text author
  rfl

/-!  # Claim C6 — the Roman-numeral lookup lists -/

/-- C6 counterexample: the Marcus and Epictetus lists do NOT extend through
LX — they stop at LVIII with 58 entries, so `LIX` and `LX` are missing. -/
theorem marcus_epictetus_numerals_stop_at_LVIII :
    (S "LIX") ∉ marcus_roman_numerals ∧ (S "LX") ∉ marcus_roman_numerals ∧
    marcus_roman_numerals.length = 58 ∧
    (S "LIX") ∉ epictetus_roman_numerals ∧ (S "LX") ∉ epictetus_roman_numerals ∧
    epictetus_roman_numerals.length = 58 := by
  decide

/-- C6 amended: each scanner's Roman-numeral list covers a contiguous range
starting at I — I..LVIII (58 entries) for the Marcus and Epictetus variants,
I..LX (60 entries) for the Seneca-dialogues variant, and I..LXXX for the
Nietzsche variant, whose 80-entry list is the largest. -/
theorem roman_numeral_lists_cover_contiguous_ranges :
    marcus_roman_numerals = (List.range 58).map (fun k => toRoman (k + 1)) ∧
    epictetus_roman_numerals = (List.range 58).map (fun k => toRoman (k + 1)) ∧
    dialogues_roman_numerals = (List.range 60).map (fun k => toRoman (k + 1)) ∧
    nietzsche_roman_numerals = (List.range 80).map (fun k => toRoman (k + 1)) ∧
    nietzsche_roman_numerals.length = 80 := by
  refine ⟨by decide, by decide, by decide, by decide, by decide⟩

/-!  # Claim C2 — per-variant minimum-length thresholds -/

/-- C2 counterexample: the Marcus variant emits a chunk whose text has only
21 characters — no 50-to-100-character minimum threshold is applied there. -/
theorem marcus_emits_short_chunk :
    chunk_marcus_meditations_pairs (S "THE FIRST BOOK\n\nI. Of my grandfather.") =
      [(S "THE FIRST BOOK - Section I", S "I. Of my grandfather.")] ∧
    (S "I. Of my grandfather.").length = 21 := by
  exact ⟨by decide, by decide⟩

/-- C2 amended: the minimum-length guard lives in each variant's flush step.
The Seneca-morals, Seneca-dialogues and Nietzsche variants emit a candidate
section exactly when its accumulated text (joined, stripped, and for the
dialogues variant also scrubbed of `[n]` markers) is LONGER than 100
characters; the Epictetus variant's bound is 50; and the Marcus variant has
no minimum at all — any recognized Roman-numeral paragraph is emitted
regardless of its length. -/
theorem scanner_flush_thresholds :
    (∀ (ms title : Option PyStr) (c : PyStr) (content : List PyStr)
        (ks : List (PyStr × PyStr)), c ≠ [] → content ≠ [] →
      ((morals_flush ms (some c) title content ks).length = ks.length + 1 ↔
        100 < (pyStrip (pyJoin (S "\n") content)).length)) ∧
    (∀ (bt : Option PyStr) (n : PyStr) (para : List PyStr)
        (ks : List (PyStr × PyStr)), n ≠ [] → para ≠ [] →
      ((dialogues_flush bt (some n) para ks).length = ks.length + 1 ↔
        100 < (removeBrackets (pyStrip (pyJoin (S "\n") para))).length)) ∧
    (∀ (title : Option PyStr) (c : PyStr) (content : List PyStr)
        (ks : List (PyStr × PyStr)), c ≠ [] → content ≠ [] →
      ((nietzsche_flush (some c) title content ks).length = ks.length + 1 ↔
        100 < (pyStrip (pyJoin (S "\n") content)).length)) ∧
    (∀ (sec : PyStr) (content : List PyStr) (ks : List (PyStr × PyStr)),
        sec ≠ [] → content ≠ [] →
      ((epictetus_flush sec content ks).length = ks.length + 1 ↔
        50 < (pyJoin (S "\n\n") content).length)) ∧
    (∀ (st : MarcusState) (book para0 : PyStr), st.current_book = some book →
      book ≠ [] →
      pyStrip para0 ≠ [] →
      isMarcusBookHeader (pyUpper (marcusFirstLine (pyStrip para0))) = false →
      marcusFirstWord (pyStrip para0) ∈ marcus_roman_numerals →
      (marcus_step st para0).chunks =
        st.chunks ++
          [(book ++ S " - Section " ++ marcusFirstWord (pyStrip para0),
            pyStrip para0)]) := by
  refine ⟨?_, ?_, ?_, ?_, ?_⟩
  · intro ms title c content ks hc hcontent
    by_cases hlen : 100 < (pyStrip (pyJoin (S "\n") content)).length
    · simp [morals_flush, hc, hcontent, hlen]
    · simp [morals_flush, hc, hcontent, hlen]
  · intro bt n para ks hn hpara
    by_cases hlen : 100 < (removeBrackets (pyStrip (pyJoin (S "\n") para))).length
    · simp [dialogues_flush, truthy, hn, hpara, hlen]
    · simp [dialogues_flush, truthy, hn, hpara, hlen]
  · intro title c content ks hc hcontent
    by_cases hlen : 100 < (pyStrip (pyJoin (S "\n") content)).length
    · simp [nietzsche_flush, truthy, hc, hcontent, hlen]
    · simp [nietzsche_flush, truthy, hc, hcontent, hlen]
  · intro sec content ks hsec hcontent
    by_cases hlen : 50 < (pyJoin (S "\n\n") content).length
    · simp [epictetus_flush, hsec, hcontent, hlen]
    · simp [epictetus_flush, hsec, hcontent, hlen]
  · intro st book para0 hbook hbk hpara hheader hword
    simp [marcus_step, hpara, hheader, hbook, hbk, hword]

/-- Witness for `scanner_flush_thresholds`: at 101 accumulated characters the
morals/dialogues/Nietzsche flushes emit, at 51 the Epictetus flush emits, and
the Marcus step emits an 11-character paragraph. -/
theorem scanner_flush_thresholds_witness :
    (S "C" ≠ ([] : PyStr) ∧ [List.replicate 101 'a'] ≠ ([] : List PyStr)) ∧
    ((morals_flush none (some (S "C")) none [List.replicate 101 'a']
        []).length = ([] : List (PyStr × PyStr)).length + 1 ↔
      100 < (pyStrip (pyJoin (S "\n") [List.replicate 101 'a'])).length) ∧
    ((dialogues_flush none (some (S "I")) [List.replicate 101 'b']
        []).length = ([] : List (PyStr × PyStr)).length + 1 ↔
      100 < (removeBrackets (pyStrip (pyJoin (S "\n") [List.replicate 101 'b']))).length) ∧
    ((nietzsche_flush (some (S "I")) none [List.replicate 101 'c']
        []).length = ([] : List (PyStr × PyStr)).length + 1 ↔
      100 < (pyStrip (pyJoin (S "\n") [List.replicate 101 'c'])).length) ∧
    ((epictetus_flush (S "Section I") [List.replicate 51 'd']
        []).length = ([] : List (PyStr × PyStr)).length + 1 ↔
      50 < (pyJoin (S "\n\n") [List.replicate 51 'd']).length) ∧
    (marcus_step { current_book := some (S "THE FIRST BOOK"), chunks := [] }
        (S "I. Another.")).chunks =
      [] ++ [(S "THE FIRST BOOK" ++ S " - Section " ++
        marcusFirstWord (pyStrip (S "I. Another.")), pyStrip (S "I. Another."))] :=
  ⟨⟨by decide, by decide⟩,
   scanner_flush_thresholds.1 none none (S "C") [List.replicate 101 'a'] []
     (by decide) (by decide),
   scanner_flush_thresholds.2.1 none (S "I") [List.replicate 101 'b'] []
     (by decide) (by decide),
   scanner_flush_thresholds.2.2.1 none (S "I") [List.replicate 101 'c'] []
     (by decide) (by decide),
   scanner_flush_thresholds.2.2.2.1 (S "Section I") [List.replicate 51 'd'] []
     (by decide) (by decide),
   scanner_flush_thresholds.2.2.2.2
     { current_book := some (S "THE FIRST BOOK"), chunks := [] }
     (S "THE FIRST BOOK") (S "I. Another.") rfl (by decide) (by decide)
     (by decide) (by decide)⟩

/-!  # Claims C7 and C9 — chunk emitter and router -/

theorem list_enumFrom_map_snd {α : Type} :
    ∀ (l : List α) (n : Nat), (List.enumFrom n l).map Prod.snd = l := by
  intro l
  induction l with
  | nil => intro n; rfl
  | cons a t ih => intro n; simp [List.enumFrom, ih]

theorem list_enumFrom_map_fst {α : Type} :
    ∀ (l : List α) (n : Nat),
      (List.enumFrom n l).map Prod.fst = List.range' n l.length := by
  intro l
  induction l with
  | nil => intro n; rfl
  | cons a t ih => intro n; simp [List.enumFrom, List.range', ih]

/-- The section/text projection of the emitted records is the input pair
sequence itself. -/
theorem create_map_section_text (idGen : Nat → PyStr)
    (ps : List (PyStr × PyStr)) (a w : PyStr) :
    (create_chunk_objects idGen ps a w).map (fun c => (c.section_label, c.text)) =
      ps := by
  unfold create_chunk_objects
  rw [List.map_map]
  have h : ((fun (c : Chunk) => (c.section_label, c.text)) ∘
      (fun p : Nat × (PyStr × PyStr) =>
        ({ id := idGen p.1, author := a, work := w, section_label := p.2.1,
           text := p.2.2, chunk_index := p.1 } : Chunk))) = Prod.snd := by
    funext p
    exact Prod.mk.eta
  rw [h]
  exact list_enumFrom_map_snd ps 0

/-- C7: `create_chunk_objects` emits exactly one record per input pair, in
input order; the `chunk_index` values are exactly `0, 1, ..., n-1`; each
record's identifier is the generator's draw at its position, and the
identifiers are pairwise distinct whenever the generator never repeats a
draw. -/
theorem create_chunk_objects_contract :
    ∀ (idGen : Nat → PyStr) (pairs : List (PyStr × PyStr)) (author work : PyStr),
      Function.Injective idGen →
      (create_chunk_objects idGen pairs author work).length = pairs.length ∧
      (create_chunk_objects idGen pairs author work).map
          (fun c => (c.section_label, c.text)) = pairs ∧
      (create_chunk_objects idGen pairs author work).map (fun c => c.chunk_index) =
        List.range pairs.length ∧
      (create_chunk_objects idGen pairs author work).map (fun c => c.id) =
        (List.range pairs.length).map idGen ∧
      ((create_chunk_objects idGen pairs author work).map (fun c => c.id)).Nodup := by
  intro idGen pairs author work hinj
  have hfst : (create_chunk_objects idGen pairs author work).map
      (fun c => c.chunk_index) = List.range pairs.length := by
    unfold create_chunk_objects
    rw [List.map_map]
    have h : ((fun (c : Chunk) => c.chunk_index) ∘
        (fun p : Nat × (PyStr × PyStr) =>
          ({ id := idGen p.1, author := author, work := work,
             section_label := p.2.1, text := p.2.2,
             chunk_index := p.1 } : Chunk))) = Prod.fst := rfl
    rw [h, List.range_eq_range']
    exact list_enumFrom_map_fst pairs 0
  have hlen : (create_chunk_objects idGen pairs author work).length =
      pairs.length := by
    unfold create_chunk_objects
    rw [List.length_map]
    exact List.enum_length
  have hid : (create_chunk_objects idGen pairs author work).map (fun c => c.id) =
      (List.range pairs.length).map idGen := by
    unfold create_chunk_objects
    rw [List.map_map]
    have h : ((fun (c : Chunk) => c.id) ∘
        (fun p : Nat × (PyStr × PyStr) =>
          ({ id := idGen p.1, author := author, work := work,
             section_label := p.2.1, text := p.2.2,
             chunk_index := p.1 } : Chunk))) = idGen ∘ Prod.fst := rfl
    rw [h, ← List.map_map, List.range_eq_range']
    exact congrArg (List.map idGen) (list_enumFrom_map_fst pairs 0)
  refine ⟨hlen, create_map_section_text idGen pairs author work, hfst, hid, ?_⟩
  rw [hid]
  exact (List.nodup_range pairs.length).map hinj

/-- Witness for `create_chunk_objects_contract` at a two-pair input with the
injective supply `n ↦ replicate n 'x'`. -/
theorem create_chunk_objects_contract_witness :
    (create_chunk_objects (fun n => List.replicate n 'x')
        [(S "s1", S "t1"), (S "s2", S "t2")] (S "Seneca") (S "W")).length =
      [(S "s1", S "t1"), (S "s2", S "t2")].length ∧
    (create_chunk_objects (fun n => List.replicate n 'x')
        [(S "s1", S "t1"), (S "s2", S "t2")] (S "Seneca") (S "W")).map
        (fun c => (c.section_label, c.text)) =
      [(S "s1", S "t1"), (S "s2", S "t2")] ∧
    (create_chunk_objects (fun n => List.replicate n 'x')
        [(S "s1", S "t1"), (S "s2", S "t2")] (S "Seneca") (S "W")).map
        (fun c => c.chunk_index) =
      List.range [(S "s1", S "t1"), (S "s2", S "t2")].length ∧
    (create_chunk_objects (fun n => List.replicate n 'x')
        [(S "s1", S "t1"), (S "s2", S "t2")] (S "Seneca") (S "W")).map
        (fun c => c.id) =
      (List.range [(S "s1", S "t1"), (S "s2", S "t2")].length).map
        (fun n => List.replicate n 'x') ∧
    ((create_chunk_objects (fun n => List.replicate n 'x')
        [(S "s1", S "t1"), (S "s2", S "t2")] (S "Seneca") (S "W")).map
        (fun c => c.id)).Nodup :=
  create_chunk_objects_contract (fun n => List.replicate n 'x')
    [(S "s1", S "t1"), (S "s2", S "t2")] (S "Seneca") (S "W")
    (fun a b h => by simpa using congrArg List.length h)

/-- C9: the router sends the title "Seneca's Morals" to the Seneca-morals
variant, sends the keyword-free title "Some Unknown Work" to the fallback,
which is the same variant, and therefore both titles produce identical
`(label, text)` chunkings of any input text. -/
theorem router_morals_and_fallback_agree :
    ∀ (idGen : Nat → PyStr) (text author : PyStr),
      chunk_text idGen text author senecasMoralsTitle =
        .ok (chunk_seneca_morals idGen (extract_content text) author
          senecasMoralsTitle) ∧
      chunk_text idGen text author (S "Some Unknown Work") =
        .ok (chunk_seneca_morals idGen (extract_content text) author
          (S "Some Unknown Work")) ∧
      (chunk_text idGen text author senecasMoralsTitle).map
          (List.map fun c => (c.section_label, c.text)) =
        (chunk_text idGen text author (S "Some Unknown Work")).map
          (List.map fun c => (c.section_label, c.text)) := by
  intro idGen text author
  refine ⟨rfl, rfl, ?_⟩
  show Except.map _ (Except.ok (chunk_seneca_morals idGen (extract_content text)
      author senecasMoralsTitle)) = Except.map _ (Except.ok (chunk_seneca_morals
      idGen (extract_content text) author (S "Some Unknown Work")))
  unfold chunk_seneca_morals
  simp only [Except.map, create_map_section_text]

/-!  # Claim C8 — dedup-hash normalization invariance -/

/-- Two equal-length strings whose zipped characters agree under `f` have
equal images under `map f`. -/
theorem map_eq_of_zip_all (f : Char → Char) :
    ∀ (x y : PyStr), x.length = y.length →
      ((List.zip x y).all fun p => f p.1 == f p.2) = true →
      x.map f = y.map f := by
  intro x
  induction x with
  | nil =>
    intro y hlen _
    have : y = [] := List.length_eq_zero.mp hlen.symm
    rw [this]
  | cons a xs ih =>
    intro y hlen hall
    cases y with
    | nil => simp at hlen
    | cons b ys =>
      have hlen' : xs.length = ys.length := by
        simpa using hlen
      simp only [List.zip_cons_cons, List.all_cons, Bool.and_eq_true,
        beq_iff_eq] at hall
      simp only [List.map_cons, hall.1]
      rw [ih ys hlen' hall.2]

/-- C8: `generate_quote_hash` is invariant under letter-case changes and
surrounding-whitespace changes in both the quote text and the author: the
stripped inputs agree character-by-character up to ASCII case, so the
normalized combined strings — and hence the digests — coincide. -/
theorem quote_hash_case_ws_invariant :
    ∀ (digest : PyStr → PyStr) (q a q' a' : PyStr),
      caseWsEquivB q q' = true → caseWsEquivB a a' = true →
      generate_quote_hash digest q a = generate_quote_hash digest q' a' := by
  intro digest q a q' a' hq ha
  have key : ∀ s s' : PyStr, caseWsEquivB s s' = true →
      pyLower (pyStrip s) = pyLower (pyStrip s') := by
    intro s s' h
    unfold caseWsEquivB at h
    simp only [Bool.and_eq_true, beq_iff_eq, Nat.beq_eq] at h
    exact map_eq_of_zip_all pyLowerChar (pyStrip s) (pyStrip s') h.1 h.2
  unfold generate_quote_hash
  rw [key q q' hq, key a a' ha]

/-- Witness for `quote_hash_case_ws_invariant`: the spec's concrete pair,
`("A Quote.", "Plato")` against `(" a quote. ", "  PLATO  ")`. -/
theorem quote_hash_case_ws_invariant_witness :
    caseWsEquivB (S "A Quote.") (S " a quote. ") = true ∧
    caseWsEquivB (S "Plato") (S "  PLATO  ") = true ∧
    generate_quote_hash (fun l => l) (S "A Quote.") (S "Plato") =
      generate_quote_hash (fun l => l) (S " a quote. ") (S "  PLATO  ") :=
  ⟨by decide, by decide,
   quote_hash_case_ws_invariant (fun l => l) (S "A Quote.") (S "Plato")
     (S " a quote. ") (S "  PLATO  ") (by decide) (by decide)⟩

/-!  # Claim C3 — the boundary locator -/

/-- `pyFind` locates the first occurrence of a single character. -/
theorem pyFind_char_append (c : Char) :
    ∀ (a b : PyStr), c ∉ a → pyFind (a ++ c :: b) [c] = some a.length := by
  intro a
  induction a with
  | nil =>
    intro b _
    show pyFind (c :: b) [c] = some 0
    unfold pyFind
    simp [List.isPrefixOf]
  | cons x xs ih =>
    intro b hmem
    have hx : (c == x) = false := by
      simp only [beq_eq_false_iff_ne, ne_eq]
      intro h
      exact hmem (by simp [h])
    show pyFind (x :: (xs ++ c :: b)) [c] = some (xs.length + 1)
    unfold pyFind
    rw [if_neg (by simp [List.isPrefixOf, hx])]
    show Option.map (· + 1) (pyFind (xs ++ c :: b) [c]) = some (xs.length + 1)
    rw [ih b (fun h => hmem (List.mem_cons_of_mem x h))]
    rfl

/-- Stripping ignores a leading whitespace character. -/
theorem pyStrip_cons_of_space {c : Char} (h : isPySpace c = true) (l : PyStr) :
    pyStrip (c :: l) = pyStrip l := by
  unfold pyStrip
  rw [List.dropWhile_cons_of_pos h]

/-- C3 counterexample: with the start marker present and the end marker
absent, `extract_content` returns the WHOLE original text (stripped), not
the text from the start marker onward. -/
theorem extract_content_no_end_marker_keeps_whole_text :
    extract_content (S "junk\n*** START OF X\nbody") =
      S "junk\n*** START OF X\nbody" ∧
    S "junk\n*** START OF X\nbody" ≠ S "*** START OF X\nbody" := by
  exact ⟨by decide, by decide⟩

/-- C3 amended: (a) when the start marker occurs, is followed by a newline
ending its line, and the end marker occurs after that newline, the result is
the stripped text strictly between the start-marker line and the end
marker; (b) when the start marker is present but the end marker is absent,
the result is the ENTIRE original text stripped — the text is not trimmed to
the region from the start marker onward. -/
theorem extract_content_corrected :
    (∀ (pre startLine mid post : PyStr),
      pyFind (pre ++ startLine ++ '\n' :: (mid ++ (S "*** END OF" ++ post)))
          (S "*** START OF") = some pre.length →
      pyFind (pre ++ startLine ++ '\n' :: (mid ++ (S "*** END OF" ++ post)))
          (S "*** END OF") =
        some (pre.length + startLine.length + 1 + mid.length) →
      '\n' ∉ startLine →
      extract_content
          (pre ++ startLine ++ '\n' :: (mid ++ (S "*** END OF" ++ post))) =
        pyStrip mid) ∧
    (∀ t : PyStr, (pyFind t (S "*** START OF")).isSome = true →
      pyFind t (S "*** END OF") = none →
      extract_content t = pyStrip t) := by
  constructor
  · intro pre startLine mid post h1 h2 h3
    have hfrom : pyFindFrom
        (pre ++ startLine ++ '\n' :: (mid ++ (S "*** END OF" ++ post)))
        (S "\n") pre.length = some (startLine.length + pre.length) := by
      unfold pyFindFrom
      rw [List.append_assoc pre startLine
        ('\n' :: (mid ++ (S "*** END OF" ++ post)))]
      rw [List.drop_left pre (startLine ++ '\n' :: (mid ++ (S "*** END OF" ++ post)))]
      have : pyFind (startLine ++ '\n' :: (mid ++ (S "*** END OF" ++ post)))
          (S "\n") = some startLine.length :=
        pyFind_char_append '\n' startLine (mid ++ (S "*** END OF" ++ post)) h3
      rw [this]
      rfl
    have hslice : pySlice
        (pre ++ startLine ++ '\n' :: (mid ++ (S "*** END OF" ++ post)))
        (startLine.length + pre.length)
        (pre.length + startLine.length + 1 + mid.length) = '\n' :: mid := by
      have hassoc : pre ++ startLine ++ '\n' :: (mid ++ (S "*** END OF" ++ post)) =
          ((pre ++ startLine) ++ '\n' :: mid) ++ (S "*** END OF" ++ post) := by
        simp [List.append_assoc]
      unfold pySlice
      rw [hassoc]
      rw [List.take_left' (by simp; omega)]
      rw [@List.drop_left' Char (pre ++ startLine) ('\n' :: mid) _
        (by simp; omega)]
    unfold extract_content
    rw [h1, h2]
    simp only [hfrom]
    rw [hslice]
    exact pyStrip_cons_of_space (by decide) mid
  · intro t h1 h2
    unfold extract_content
    rw [h2]
    rcases hf : pyFind t (S "*** START OF") with _ | v
    · rfl
    · rfl

/-- Witness for `extract_content_corrected`: a concrete document with both
markers, and the counterexample-style document with only the start marker. -/
theorem extract_content_corrected_witness :
    pyFind (S "fr\n" ++ S "*** START OF THE EBOOK ***" ++ '\n' ::
        (S " body " ++ (S "*** END OF" ++ S " rest")))
      (S "*** START OF") = some (S "fr\n").length ∧
    pyFind (S "fr\n" ++ S "*** START OF THE EBOOK ***" ++ '\n' ::
        (S " body " ++ (S "*** END OF" ++ S " rest")))
      (S "*** END OF") =
      some ((S "fr\n").length + (S "*** START OF THE EBOOK ***").length + 1 +
        (S " body ").length) ∧
    '\n' ∉ S "*** START OF THE EBOOK ***" ∧
    extract_content (S "fr\n" ++ S "*** START OF THE EBOOK ***" ++ '\n' ::
        (S " body " ++ (S "*** END OF" ++ S " rest"))) = pyStrip (S " body ") ∧
    (pyFind (S "pre *** START OF Y tail") (S "*** START OF")).isSome = true ∧
    pyFind (S "pre *** START OF Y tail") (S "*** END OF") = none ∧
    extract_content (S "pre *** START OF Y tail") =
      pyStrip (S "pre *** START OF Y tail") :=
  ⟨by decide, by decide, by decide,
   extract_content_corrected.1 (S "fr\n") (S "*** START OF THE EBOOK ***")
     (S " body ") (S " rest") (by decide) (by decide) (by decide),
   by decide, by decide,
   extract_content_corrected.2 (S "pre *** START OF Y tail") (by decide)
     (by decide)⟩

/-!  # Claim C4 — footnote suppression in the dialogues scanner -/

/-- C4 counterexample: in `dialoguesFootnoteInput` the Roman-numeral marker
`II.` (with 110 characters of content) appears after a footnote-marker line;
it does NOT end the suppression and opens no section — only the next
book-header marker does, so the emitted labels are Paragraph I and
Paragraph III, with no Paragraph II. -/
theorem dialogues_roman_marker_inside_footnotes_is_dropped :
    (chunk_seneca_dialogues_pairs dialoguesFootnoteInput).map Prod.fst =
      [S "THE FIRST BOOK OF THE DIALOGUES - Paragraph I",
       S "THE SECOND BOOK OF THE DIALOGUES - Paragraph III"] := by
  decide

/-- C4 amended: once a footnote-marker line is seen, every subsequent line
that is not a book header leaves the scanner state untouched — in
particular a Roman-numeral section marker is discarded and opens nothing;
a further footnote marker keeps suppression on without emitting; and
suppression ends exactly at the next book-header marker (of either form),
which is the only un-suppression trigger. -/
theorem dialogues_footnote_suppression_behavior :
    ∀ (st : DialoguesState) (l : PyStr), st.in_footnotes = true →
      ((isDialoguesBookHeader (pyStrip l) = false ∧
        isAnnaeusHeader (pyStrip l) = false ∧
        startsWithFootnote (pyStrip l) = false) →
        dialogues_step st l = st) ∧
      ((isDialoguesBookHeader (pyStrip l) = false ∧
        isAnnaeusHeader (pyStrip l) = false ∧
        startsWithFootnote (pyStrip l) = true) →
        (dialogues_step st l).in_footnotes = true ∧
        (st.current_paragraph = [] → (dialogues_step st l).chunks = st.chunks)) ∧
      ((isDialoguesBookHeader (pyStrip l) = true ∨
        isAnnaeusHeader (pyStrip l) = true) →
        (dialogues_step st l).in_footnotes = false) := by
  intro st l hfo
  refine ⟨?_, ?_, ?_⟩
  · rintro ⟨hb, ha, hf⟩
    by_cases hbk : truthy st.current_book
    · simp [dialogues_step, hb, ha, hf, hbk, hfo]
    · simp [dialogues_step, hb, ha, hbk]
  · rintro ⟨hb, ha, hf⟩
    by_cases hbk : truthy st.current_book
    · constructor
      · by_cases hp : (st.current_paragraph ≠ [] ∧
            truthy st.current_paragraph_num = true)
        · simp [dialogues_step, hb, ha, hf, hbk, hp.1, hp.2]
        · rcases Decidable.not_and_iff_or_not.mp hp with hp1 | hp2
          · have hp1' : st.current_paragraph = [] := not_not.mp hp1
            simp [dialogues_step, hb, ha, hf, hbk, hp1']
          · have hp2' : truthy st.current_paragraph_num = false :=
              Bool.not_eq_true _ ▸ eq_false_of_ne_true hp2
            simp [dialogues_step, hb, ha, hf, hbk, hp2']
      · intro hpar
        simp [dialogues_step, hb, ha, hf, hbk, hpar]
    · constructor
      · simp [dialogues_step, hb, ha, hbk, hfo]
      · intro _
        simp [dialogues_step, hb, ha, hbk]
  · intro h
    rcases h with h | h
    · simp [dialogues_step, h]
    · by_cases hb : isDialoguesBookHeader (pyStrip l)
      · simp [dialogues_step, hb]
      · simp [dialogues_step, hb, h]

/-- Witness for `dialogues_footnote_suppression_behavior`: with suppression
on, the Roman-numeral line "II. ..." leaves the state untouched. -/
theorem dialogues_footnote_suppression_behavior_witness :
    isDialoguesBookHeader (pyStrip (S "II. this line is long enough.")) = false ∧
    isAnnaeusHeader (pyStrip (S "II. this line is long enough.")) = false ∧
    startsWithFootnote (pyStrip (S "II. this line is long enough.")) = false ∧
    dialogues_step
      { current_book := some (S "THE FIRST BOOK OF THE DIALOGUES"),
        current_book_title := some (S "THE FIRST BOOK OF THE DIALOGUES"),
        current_paragraph := [], current_paragraph_num := none,
        in_footnotes := true, chunks := [] }
      (S "II. this line is long enough.") =
      { current_book := some (S "THE FIRST BOOK OF THE DIALOGUES"),
        current_book_title := some (S "THE FIRST BOOK OF THE DIALOGUES"),
        current_paragraph := [], current_paragraph_num := none,
        in_footnotes := true, chunks := [] } :=
  ⟨by decide, by decide, by decide,
   (dialogues_footnote_suppression_behavior
      { current_book := some (S "THE FIRST BOOK OF THE DIALOGUES"),
        current_book_title := some (S "THE FIRST BOOK OF THE DIALOGUES"),
        current_paragraph := [], current_paragraph_num := none,
        in_footnotes := true, chunks := [] }
      (S "II. this line is long enough.") rfl).1
     ⟨by decide, by decide, by decide⟩⟩

/-!  # Claim C10 — table-of-contents chapter headers in the morals scanner -/

/-- Two cons-headed patterns with distinct heads cannot both be prefixes. -/
theorem not_isPrefixOf_of_head {a b : Char} (hab : a ≠ b) (x y l : PyStr)
    (h : (a :: x).isPrefixOf l = true) : (b :: y).isPrefixOf l = false := by
  cases l with
  | nil => simp [List.isPrefixOf] at h
  | cons c rest =>
    simp only [List.isPrefixOf, Bool.and_eq_true, beq_iff_eq] at h
    have hbc : (b == c) = false := by
      rw [beq_eq_false_iff_ne]
      intro hbc
      exact hab (h.1.symm ▸ hbc.symm ▸ rfl)
    simp [List.isPrefixOf, hbc]

/-- A chapter-header line never carries the main-section prefix. -/
theorem chapter_header_not_seneca {l : PyStr} (h : isChapterHeader l = true) :
    (S "SENECA OF ").isPrefixOf l = false := by
  unfold isChapterHeader at h
  rw [Bool.and_eq_true, Bool.and_eq_true] at h
  have hpre : ('C' :: S "HAPTER ").isPrefixOf l = true := by
    rw [show ('C' :: S "HAPTER ") = S "CHAPTER " from by decide]
    exact h.1.1
  rw [show S "SENECA OF " = 'S' :: S "ENECA OF " from by decide]
  exact not_isPrefixOf_of_head (by decide) _ _ l hpre

/-- Processing a non-marker line changes neither the emitted chunks nor the
open-chapter and main-section registers. -/
theorem morals_loop_cons_nonmarker (f : Nat) (st : MoralsState) (l : PyStr)
    (rest : List PyStr)
    (h1 : (S "SENECA OF ").isPrefixOf (pyStrip l) = false)
    (h2 : isChapterHeader (pyStrip l) = false) :
    ∃ st', morals_loop (f + 1) st (l :: rest) = morals_loop f st' rest ∧
      st'.chunks = st.chunks ∧ st'.current_chapter = st.current_chapter ∧
      st'.current_main_section = st.current_main_section := by
  by_cases h3 : (pyStrip l = [] || decide ((pyStrip l).length < 10)) = true
  · by_cases h4 : st.chapter_content ≠ []
    · exact ⟨{ st with chapter_content := st.chapter_content ++ [pyStrip l] },
        by simp [morals_loop, h1, h2, h3, h4], rfl, rfl, rfl⟩
    · exact ⟨st, by simp [morals_loop, h1, h2, h3, h4], rfl, rfl, rfl⟩
  · by_cases h5 : isMoralsBoilerplate (pyStrip l) = true
    · exact ⟨st, by simp [morals_loop, h1, h2, h3, h5], rfl, rfl, rfl⟩
    · by_cases h6 : truthy st.current_main_section = true
      · exact ⟨{ st with chapter_content := st.chapter_content ++ [pyStrip l] },
          by simp [morals_loop, h1, h2, h3, h5, h6], rfl, rfl, rfl⟩
      · exact ⟨st, by simp [morals_loop, h1, h2, h3, h5, h6], rfl, rfl, rfl⟩

/-- With no open chapter, a run of non-marker lines followed by one
structural marker emits nothing and ends with an empty buffer. -/
theorem morals_loop_skip_until_marker :
    ∀ (mid : List PyStr) (f : Nat) (st : MoralsState) (m : PyStr),
      st.current_chapter = none →
      (∀ l ∈ mid, isMoralsStructuralMarker (pyStrip l) = false) →
      isMoralsStructuralMarker (pyStrip m) = true →
      mid.length + 1 ≤ f →
      (morals_loop f st (mid ++ [m])).chunks = st.chunks ∧
      (morals_loop f st (mid ++ [m])).chapter_content = [] := by
  intro mid
  induction mid with
  | nil =>
    intro f st m hch _ hm hf
    obtain ⟨f', rfl⟩ : ∃ f', f = f' + 1 := ⟨f - 1, by omega⟩
    unfold isMoralsStructuralMarker at hm
    rw [Bool.or_eq_true] at hm
    rcases hm with hs | hc
    · constructor
      · simp [morals_loop, hs, morals_flush, hch]
      · simp [morals_loop, hs]
    · have hsen := chapter_header_not_seneca hc
      constructor
      · simp [morals_loop, hsen, hc, collectTitle, morals_flush, hch]
      · simp [morals_loop, hsen, hc, collectTitle]
  | cons l mid' ih =>
    intro f st m hch hmid hm hf
    obtain ⟨f', rfl⟩ : ∃ f', f = f' + 1 := ⟨f - 1, by omega⟩
    have hl := hmid l (List.mem_cons_self l mid')
    unfold isMoralsStructuralMarker at hl
    rw [Bool.or_eq_false_iff] at hl
    obtain ⟨st', heq, hks, hch', hms⟩ :=
      morals_loop_cons_nonmarker f' st l (mid' ++ [m]) hl.1 hl.2
    rw [List.cons_append, heq]
    have hrec := ih f' st' m (hch' ▸ hch)
      (fun x hx => hmid x (List.mem_cons_of_mem l hx)) hm (by simp at hf ⊢; omega)
    exact ⟨hrec.1.trans hks, hrec.2⟩

/-- C10: a chapter-header line whose look-ahead finds no ALL-CAPS title line
is treated as a table-of-contents entry: the open chapter is reset to
`None`, and the lines that follow — up to and including the next structural
marker — are emitted in no chunk (the scanner's chunk list stays exactly
what the header's flush of the PREVIOUS chapter left, and the buffer is
empty after the next marker). -/
theorem morals_toc_chapter_header_is_discarded :
    ∀ (fuel : Nat) (st : MoralsState) (h : PyStr) (mid : List PyStr) (m : PyStr),
      isChapterHeader (pyStrip h) = true →
      (collectTitle (mid ++ [m])).1 = [] →
      (∀ l ∈ mid, isMoralsStructuralMarker (pyStrip l) = false) →
      isMoralsStructuralMarker (pyStrip m) = true →
      mid.length + 2 ≤ fuel →
      (morals_loop fuel st (h :: (mid ++ [m]))).chunks =
        morals_flush st.current_main_section st.current_chapter
          st.current_chapter_title st.chapter_content st.chunks ∧
      (morals_loop fuel st (h :: (mid ++ [m]))).chapter_content = [] ∧
      (morals_loop 1 st [h]).current_chapter = none := by
  intro fuel st h mid m hh ht hmid hm hf
  obtain ⟨f', rfl⟩ : ∃ f', fuel = f' + 1 := ⟨fuel - 1, by omega⟩
  have hsen := chapter_header_not_seneca hh
  have hstep : morals_loop (f' + 1) st (h :: (mid ++ [m])) =
      morals_loop f'
        { st with
          current_chapter := none
          chapter_content := []
          chunks := morals_flush st.current_main_section st.current_chapter
            st.current_chapter_title st.chapter_content st.chunks }
        (mid ++ [m]) := by
    simp [morals_loop, hsen, hh, ht]
  have hrec := morals_loop_skip_until_marker mid f'
    { st with
      current_chapter := none
      chapter_content := []
      chunks := morals_flush st.current_main_section st.current_chapter
        st.current_chapter_title st.chapter_content st.chunks }
    m rfl hmid hm (by omega)
  refine ⟨?_, ?_, ?_⟩
  · rw [hstep]
    exact hrec.1
  · rw [hstep]
    exact hrec.2
  · simp [morals_loop, hsen, hh, collectTitle]

/-- Witness for `morals_toc_chapter_header_is_discarded`: a concrete
table-of-contents fragment ("CHAPTER II." followed by a lower-case line and
then a main-section marker). -/
theorem morals_toc_chapter_header_is_discarded_witness :
    isChapterHeader (pyStrip (S "CHAPTER II.")) = true ∧
    (collectTitle ([S "a lowercase toc leftover line"] ++ [S "SENECA OF ANGER"])).1 = [] ∧
    (∀ l ∈ [S "a lowercase toc leftover line"],
      isMoralsStructuralMarker (pyStrip l) = false) ∧
    isMoralsStructuralMarker (pyStrip (S "SENECA OF ANGER")) = true ∧
    (morals_loop 3
        { current_main_section := some (S "SENECA OF BENEFITS"),
          current_chapter := some (S "CHAPTER I"),
          current_chapter_title := none,
          chapter_content := [S "short"], chunks := [] }
        (S "CHAPTER II." :: ([S "a lowercase toc leftover line"] ++
          [S "SENECA OF ANGER"]))).chunks =
      morals_flush (some (S "SENECA OF BENEFITS")) (some (S "CHAPTER I"))
        none [S "short"] [] ∧
    (morals_loop 3
        { current_main_section := some (S "SENECA OF BENEFITS"),
          current_chapter := some (S "CHAPTER I"),
          current_chapter_title := none,
          chapter_content := [S "short"], chunks := [] }
        (S "CHAPTER II." :: ([S "a lowercase toc leftover line"] ++
          [S "SENECA OF ANGER"]))).chapter_content = [] ∧
    (morals_loop 1
        { current_main_section := some (S "SENECA OF BENEFITS"),
          current_chapter := some (S "CHAPTER I"),
          current_chapter_title := none,
          chapter_content := [S "short"], chunks := [] }
        [S "CHAPTER II."]).current_chapter = none := by
  have key := morals_toc_chapter_header_is_discarded 3
    { current_main_section := some (S "SENECA OF BENEFITS"),
      current_chapter := some (S "CHAPTER I"),
      current_chapter_title := none,
      chapter_content := [S "short"], chunks := [] }
    (S "CHAPTER II.") [S "a lowercase toc leftover line"] (S "SENECA OF ANGER")
    (by decide) (by decide) (by decide) (by decide) (by decide)
  exact ⟨by decide, by decide, by decide, by decide, key.1, key.2.1, key.2.2⟩
